import Mathlib

/-!
# Verification of the camera-streaming-daemon core

Shallow embedding of the MAVLink camera server (`mavlink_server.cpp`) and the
camera parameter store (`CameraParameters.cpp`) of the camera-streaming-daemon,
together with proofs about the behaviour its specification describes.

`std::map` is modelled as an association list kept sorted by key, so that
iteration order of the model coincides with iteration order of `std::map`
(ascending key order).  `std::map::insert` does not overwrite an existing
key; the model mirrors that.
-/

namespace Csd

/-- Model of `std::map<K,V>::find`: the value stored at `k`, if any. -/
def mapFind {K V : Type} [DecidableEq K] : List (K × V) → K → Option V
  | [], _ => none
  | (k', v) :: rest, k => if k' = k then some v else mapFind rest k

/-- Lexicographic comparison of character lists: the order underlying
`std::string::operator<` (byte-wise for the ASCII names used here). -/
def charListLt : List Char → List Char → Bool
  | _, [] => false
  | [], _ :: _ => true
  | a :: as, b :: bs => if a < b then true else if a = b then charListLt as bs else false

/-- `std::string` comparison: lexicographic on the character sequence. -/
def strLt (a b : String) : Bool := charListLt a.data b.data

/-- Model of `std::map<K,V>::insert(make_pair(k, v))` for a map ordered by the
strict order `lt`: inserts at the sorted position, and is a no-op when the key
is already present (C++ `insert` semantics: an existing mapping is not
overwritten). -/
def mapInsertBy {K V : Type} [DecidableEq K] (lt : K → K → Bool) :
    List (K × V) → K → V → List (K × V)
  | [], k, v => [(k, v)]
  | (k', v') :: rest, k, v =>
    if lt k k' then (k, v) :: (k', v') :: rest
    else if k = k' then (k', v') :: rest
    else (k', v') :: mapInsertBy lt rest k v

/-- `std::map` insertion for string keys (`std::map<std::string, V>`). -/
def mapInsert {V : Type} (m : List (String × V)) (k : String) (v : V) : List (String × V) :=
  mapInsertBy strLt m k v

/-- `std::map` insertion for integer keys (`std::map<int, V>`). -/
def mapInsertNat {V : Type} (m : List (Nat × V)) (k : Nat) (v : V) : List (Nat × V) :=
  mapInsertBy (fun a b => a < b) m k v

/-- Model of overwriting assignment through an iterator/pointer obtained from
`find` (in-place mutation of a mapped value). -/
def mapAssign {K V : Type} [DecidableEq K] : List (K × V) → K → V → List (K × V)
  | [], _, _ => []
  | (k', v') :: rest, k, v =>
    if k' = k then (k, v) :: rest else (k', v') :: mapAssign rest k v

end Csd

namespace Csd

/-! ## Camera parameter store (`CameraParameters.cpp`) -/

/-- `Modelled from the spec:` the numeric `PARAM_ID_*` / `PARAM_TYPE_*`
constants live in `CameraParameters.h`, which is not among the given sources.
The spec fixes only that parameter ids are pairwise distinct (name-id
bijection) and that the type tags `UINT8, INT32, UINT32, REAL32` are distinct
scalar-type codes; no claim depends on the concrete numbers, so distinct
representatives are chosen here. -/
def PARAM_TYPE_UINT8 : Int := 1

/-- Scalar type code for 32-bit signed integers (see `PARAM_TYPE_UINT8`). -/
def PARAM_TYPE_INT32 : Int := 6

/-- Scalar type code for 32-bit unsigned integers (see `PARAM_TYPE_UINT8`). -/
def PARAM_TYPE_UINT32 : Int := 5

/-- Scalar type code for 32-bit reals (see `PARAM_TYPE_UINT8`). -/
def PARAM_TYPE_REAL32 : Int := 9

/-- The camera parameter store: `paramValue` is the current-value map,
`paramValuesSupported` the supported-values map and `paramIdType` maps a
parameter name to its `(id, type)` pair.  All three are `std::map`s keyed by
the parameter-name string, modelled as key-sorted association lists. -/
structure CameraParameters where
  paramValue : List (String × String)
  paramValuesSupported : List (String × String)
  paramIdType : List (String × (Int × Int))
deriving DecidableEq, Repr

/-- The insertion sequence performed by `CameraParameters::initParamIdType`,
in source order: each element is `(name, (PARAM_ID_*, PARAM_TYPE_*))`.
Ids follow the modelled distinct constants (see `PARAM_TYPE_UINT8`); the
duplicated `wb-mode` insertion of the source is kept. -/
def initParamIdTypeSequence : List (String × (Int × Int)) :=
  [ ("camera-mode", (1, PARAM_TYPE_UINT32)),
    ("brightness", (2, PARAM_TYPE_UINT32)),
    ("contrast", (3, PARAM_TYPE_UINT32)),
    ("saturation", (4, PARAM_TYPE_UINT32)),
    ("hue", (5, PARAM_TYPE_INT32)),
    ("wb-mode", (6, PARAM_TYPE_UINT32)),
    ("gamma", (7, PARAM_TYPE_UINT32)),
    ("gain", (8, PARAM_TYPE_UINT32)),
    ("power-mode", (9, PARAM_TYPE_UINT32)),
    ("wb-temp", (10, PARAM_TYPE_UINT32)),
    ("sharpness", (11, PARAM_TYPE_UINT32)),
    ("backlight", (12, PARAM_TYPE_UINT32)),
    ("exp-mode", (13, PARAM_TYPE_UINT32)),
    ("exp-absolute", (14, PARAM_TYPE_UINT32)),
    ("image-size", (15, PARAM_TYPE_UINT32)),
    ("image-format", (16, PARAM_TYPE_UINT32)),
    ("pixel-format", (17, PARAM_TYPE_UINT32)),
    ("wb-mode", (6, PARAM_TYPE_UINT32)),
    ("scene-mode", (18, PARAM_TYPE_UINT32)),
    ("video-size", (19, PARAM_TYPE_UINT32)),
    ("video-format", (20, PARAM_TYPE_UINT32)),
    ("video-snapshot", (21, PARAM_TYPE_UINT32)) ]

/-- `CameraParameters::initParamIdType`: populates the `paramIdType` map by a
sequence of `set` (= `std::map::insert`) calls. -/
def initParamIdType : List (String × (Int × Int)) :=
  initParamIdTypeSequence.foldl (fun m kv => mapInsert m kv.1 kv.2) []

/-- A freshly constructed `CameraParameters` (the constructor only calls
`initParamIdType`; both value maps start empty). -/
def CameraParameters.init : CameraParameters :=
  { paramValue := [], paramValuesSupported := [], paramIdType := initParamIdType }

/-- `CameraParameters::set(pMap, key, value)` = `pMap.insert(make_pair(key, value))`. -/
def CameraParameters.setMap (pMap : List (String × String)) (key value : String) :
    List (String × String) :=
  mapInsert pMap key value

/-- `CameraParameters::get(pMap, key)`: the mapped value if found, `""` otherwise. -/
def CameraParameters.getMap (pMap : List (String × String)) (key : String) : String :=
  match mapFind pMap key with
  | some v => v
  | none => ""

/-- `CameraParameters::setParameter(key, value)`: calls `set` on `paramValue`
and unconditionally returns `1`. -/
def CameraParameters.setParameter (cp : CameraParameters) (key value : String) :
    Int × CameraParameters :=
  (1, { cp with paramValue := CameraParameters.setMap cp.paramValue key value })

/-- `CameraParameters::setParameterSupported(key, value)`: calls `set` on
`paramValuesSupported` and unconditionally returns `1`. -/
def CameraParameters.setParameterSupported (cp : CameraParameters) (key value : String) :
    Int × CameraParameters :=
  (1, { cp with paramValuesSupported :=
          CameraParameters.setMap cp.paramValuesSupported key value })

/-- `CameraParameters::getParameter(key)`: `get` on `paramValue`. -/
def CameraParameters.getParameter (cp : CameraParameters) (key : String) : String :=
  CameraParameters.getMap cp.paramValue key

/-- `CameraParameters::getParameterID(param)`: the id component of the
`paramIdType` entry, `-1` when the name is unknown. -/
def CameraParameters.getParameterID (cp : CameraParameters) (param : String) : Int :=
  match mapFind cp.paramIdType param with
  | some p => p.1
  | none => -1

/-- `CameraParameters::getParameterType(param)`: the type component of the
`paramIdType` entry, `-1` when the name is unknown. -/
def CameraParameters.getParameterType (cp : CameraParameters) (param : String) : Int :=
  match mapFind cp.paramIdType param with
  | some p => p.2
  | none => -1

end Csd

namespace Csd

/-! ## MAVLink server (`mavlink_server.cpp`) -/

/-- `MAV_COMP_ID_CAMERA` (first camera component id; the spec's glossary fixes
the camera component id range as 100–105). -/
def MAV_COMP_ID_CAMERA : Nat := 100

/-- `MAV_COMP_ID_CAMERA6` (last camera component id). -/
def MAV_COMP_ID_CAMERA6 : Nat := 105

/-- `UINT32_MAX`. -/
def UINT32_MAX : Nat := 2 ^ 32 - 1

/-- `Modelled from the spec:` the `MAV_CMD_*` numbers come from the MAVLink
headers, which are not among the given sources; the standard values are used.
Only their pairwise distinctness matters for the dispatch switch. -/
def MAV_CMD_REQUEST_CAMERA_INFORMATION : Nat := 521

/-- `MAV_CMD_REQUEST_CAMERA_SETTINGS` (see `MAV_CMD_REQUEST_CAMERA_INFORMATION`). -/
def MAV_CMD_REQUEST_CAMERA_SETTINGS : Nat := 522

/-- `MAV_CMD_REQUEST_STORAGE_INFORMATION` (see `MAV_CMD_REQUEST_CAMERA_INFORMATION`). -/
def MAV_CMD_REQUEST_STORAGE_INFORMATION : Nat := 525

/-- `MAV_CMD_REQUEST_VIDEO_STREAM_INFORMATION` (see `MAV_CMD_REQUEST_CAMERA_INFORMATION`). -/
def MAV_CMD_REQUEST_VIDEO_STREAM_INFORMATION : Nat := 2504

/-- A `(width, height)` pair advertised by a stream (`Stream::FrameSize`,
both fields `uint32_t`, modelled as `Nat` with an explicit `< 2^32` bound
where it matters). -/
structure FrameSize where
  width : Nat
  height : Nat
deriving DecidableEq, Repr

/-- A pixel format owning its list of advertised frame sizes. -/
structure Format where
  frame_sizes : List FrameSize
deriving DecidableEq, Repr

/-- A video stream: id, streaming flag, advertised formats and the optional
selected frame size (a pointer into the advertised sizes in C++, modelled by
value). -/
structure Stream where
  id : Nat
  is_streaming : Bool
  formats : List Format
  sel_frame_size : Option FrameSize
deriving DecidableEq, Repr

/-- The flattened `(format, frame_size)` advertisement order the resolver's
nested loops enumerate. -/
def Stream.allSizes (s : Stream) : List FrameSize :=
  (s.formats.map Format.frame_sizes).flatten

/-- Loop body of `MavlinkServer::_find_best_frame_size`: walks the advertised
sizes in enumeration order carrying the current `best` pointer.  An exact
`(w, h)` match returns immediately; otherwise `best` is replaced when it is
still null, or when the candidate lies under the `(w, h)` ceiling and
dominates `best` in both coordinates (the C++ condition
`!best || (fs.width <= w && fs.width >= best->width && fs.height <= h && fs.height >= best->height)`). -/
def findBestGo (w h : Nat) : List FrameSize → Option FrameSize → Option FrameSize
  | [], best => best
  | fs :: rest, best =>
    if fs.width = w ∧ fs.height = h then some fs
    else
      match best with
      | none => findBestGo w h rest (some fs)
      | some b =>
        if fs.width ≤ w ∧ b.width ≤ fs.width ∧ fs.height ≤ h ∧ b.height ≤ fs.height then
          findBestGo w h rest (some fs)
        else
          findBestGo w h rest (some b)

/-- `MavlinkServer::_find_best_frame_size(s, w, h)`. -/
def findBestFrameSize (s : Stream) (w h : Nat) : Option FrameSize :=
  findBestGo w h s.allSizes none

/-- `Modelled from the spec:` the camera component seen by the server.
`CameraComponent.cpp` is not among the given sources (only its V4L2 header and
its callers are), so the device side is modelled from the spec's §4.3
contract: `setParam` validates the name against the schema (`UnknownParam`),
checks the declared type against the schema type (`BadType`), then dispatches
to the device-side setter — whose accept/reject outcome is modelled by the
`deviceAccepts` flag (`DeviceError` on reject) — and updates the parameter
store only on success.  `getParam` reads the store (`Missing` when absent);
`getParamType` and `getParamList` delegate to `CameraParameters`. -/
structure CameraComponent where
  params : CameraParameters
  deviceAccepts : Bool
deriving DecidableEq, Repr

/-- `Modelled from the spec:` `CameraComponent::setParam` (see `CameraComponent`). -/
def CameraComponent.setParam (c : CameraComponent) (param_id param_value : String)
    (param_type : Int) : Bool × CameraComponent :=
  match mapFind c.params.paramIdType param_id with
  | none => (false, c)
  | some idType =>
    if param_type ≠ idType.2 then (false, c)
    else if c.deviceAccepts then
      (true, { c with params := (c.params.setParameter param_id param_value).2 })
    else (false, c)

/-- `Modelled from the spec:` `CameraComponent::getParam` (see `CameraComponent`). -/
def CameraComponent.getParam (c : CameraComponent) (param_id : String) : Option String :=
  mapFind c.params.paramValue param_id

/-- `CameraComponent::getParamType`: delegates to
`CameraParameters::getParameterType`. -/
def CameraComponent.getParamType (c : CameraComponent) (param_id : String) : Int :=
  c.params.getParameterType param_id

/-- `CameraComponent::getParamList`: the current-value map (`list_current`).
Iteration order is the map's key order, i.e. the model's list order. -/
def CameraComponent.getParamList (c : CameraComponent) : List (String × String) :=
  c.params.paramValue

end Csd

namespace Csd

/-- `MAV_RESULT` values a `COMMAND_ACK` can carry here. -/
inductive MavResult
  | accepted
  | failed
deriving DecidableEq, Repr

/-- `PARAM_ACK` values a `PARAM_EXT_ACK` can carry here. -/
inductive ParamAck
  | accepted
  | failed
deriving DecidableEq, Repr

/-- An outbound MAVLink message, identified by its type and the payload fields
the core computes.  Outbound traffic is modelled as the list of messages the
handlers hand to the UDP wrapper, in order; the wrapper (an external
collaborator, spec §1) is modelled as accepting every write.  Static
device-record payloads (`CameraInfo` fields, the placeholder storage numbers)
and the RTSP URI produced by the external RTSP server are elided; for
`VIDEO_STREAM_INFORMATION` the query suffix the server builds and passes to
the RTSP collaborator is recorded instead. -/
inductive OutMsg
  | commandAck (command : Nat) (comp_id : Nat) (result : MavResult)
  | cameraInformation (comp_id : Nat)
  | cameraSettings (comp_id : Nat) (mode : Nat)
  | storageInformation (comp_id : Nat)
  | videoStreamInformation (stream_id : Nat) (streaming : Bool) (width height : Nat)
      (query : String)
  | paramExtValue (comp_id : Nat) (param_id param_value : String)
      (param_count param_index : Nat) (param_type : Int)
  | paramExtAck (comp_id : Nat) (param_id param_value : String) (param_type : Int)
      (result : ParamAck)
deriving DecidableEq, Repr

/-- The server state the handlers read and write: configured system id, default
component id, the streams and the component registry `compIdToObj`
(`std::map<int, CameraComponent *>`, modelled as a key-sorted association
list; C++ pointer identity of components is modelled by value equality). -/
structure ServerState where
  system_id : Nat
  comp_id : Nat
  streams : List Stream
  compIdToObj : List (Nat × CameraComponent)
deriving DecidableEq, Repr

/-- `MavlinkServer::getCameraComponent(compID)`: `NULL` outside the camera id
range, otherwise the registry lookup. -/
def getCameraComponent (st : ServerState) (compID : Nat) : Option CameraComponent :=
  if compID < MAV_COMP_ID_CAMERA ∨ MAV_COMP_ID_CAMERA6 < compID then none
  else mapFind st.compIdToObj compID

/-- A decoded `COMMAND_LONG` (`mavlink_command_long_t`); `param1`/`param2` are
floats in the wire struct, used here only in comparisons with `1` and casts to
unsigned int, so they are modelled as `Nat`. -/
structure CommandLong where
  target_system : Nat
  target_component : Nat
  command : Nat
  param1 : Nat
  param2 : Nat
deriving DecidableEq, Repr

/-- `MavlinkServer::_send_ack`: one `COMMAND_ACK` with `MAV_RESULT_ACCEPTED`
or `MAV_RESULT_FAILED` (progress byte 255 elided). -/
def sendAck (cmd comp_id : Nat) (success : Bool) : OutMsg :=
  OutMsg.commandAck cmd comp_id (if success then MavResult.accepted else MavResult.failed)

/-- `MavlinkServer::_handle_request_camera_information`: `param1 != 1` acks
success immediately; otherwise a bound target emits `CAMERA_INFORMATION` then
acks success, and an unbound target acks failure. -/
def handleRequestCameraInformation (st : ServerState) (cmd : CommandLong) : List OutMsg :=
  if cmd.param1 ≠ 1 then [sendAck cmd.command cmd.target_component true]
  else
    match getCameraComponent st cmd.target_component with
    | some _ =>
        [OutMsg.cameraInformation cmd.target_component,
         sendAck cmd.command cmd.target_component true]
    | none => [sendAck cmd.command cmd.target_component false]

/-- `MavlinkServer::_handle_request_camera_settings`: same shape as
`handleRequestCameraInformation`, emitting `CAMERA_SETTINGS` with the
hard-coded mode 1. -/
def handleRequestCameraSettings (st : ServerState) (cmd : CommandLong) : List OutMsg :=
  if cmd.param1 ≠ 1 then [sendAck cmd.command cmd.target_component true]
  else
    match getCameraComponent st cmd.target_component with
    | some _ =>
        [OutMsg.cameraSettings cmd.target_component 1,
         sendAck cmd.command cmd.target_component true]
    | none => [sendAck cmd.command cmd.target_component false]

/-- `MavlinkServer::_handle_request_storage_information`: same shape as
`handleRequestCameraInformation`, emitting the placeholder
`STORAGE_INFORMATION`. -/
def handleRequestStorageInformation (st : ServerState) (cmd : CommandLong) : List OutMsg :=
  if cmd.param1 ≠ 1 then [sendAck cmd.command cmd.target_component true]
  else
    match getCameraComponent st cmd.target_component with
    | some _ =>
        [OutMsg.storageInformation cmd.target_component,
         sendAck cmd.command cmd.target_component true]
    | none => [sendAck cmd.command cmd.target_component false]

/-- Loop of `MavlinkServer::_handle_camera_video_stream_request` over the
streams: for each stream matching `camera_id` (all when `camera_id == 0`),
frame size is the selection if set, else the resolver at
`(UINT32_MAX, UINT32_MAX)`; the `?width=W&height=H` query suffix is built only
from a set selection, and a `snprintf` result exceeding the 35-byte buffer
aborts the whole request.  A null resolver result (stream without sizes) is a
null dereference in the C++ and is modelled as `(0, 0)`. -/
def videoStreamGo (st : ServerState) (camera_id : Nat) : List Stream → List OutMsg
  | [] => []
  | s :: rest =>
    if camera_id = 0 ∨ camera_id = s.id then
      let fs := match s.sel_frame_size with
        | some f => some f
        | none => findBestFrameSize s UINT32_MAX UINT32_MAX
      let query := match s.sel_frame_size with
        | some f => "?width=" ++ toString f.width ++ "&height=" ++ toString f.height
        | none => ""
      if 35 < query.length then []
      else
        OutMsg.videoStreamInformation s.id s.is_streaming (fs.getD ⟨0, 0⟩).width
            (fs.getD ⟨0, 0⟩).height query :: videoStreamGo st camera_id rest
    else videoStreamGo st camera_id rest

/-- `MavlinkServer::_handle_camera_video_stream_request`: nothing unless
`action == 1`; no `COMMAND_ACK` is ever sent for this command. -/
def handleCameraVideoStreamRequest (st : ServerState) (camera_id action : Nat) :
    List OutMsg :=
  if action ≠ 1 then [] else videoStreamGo st camera_id st.streams

end Csd

namespace Csd

/-- A decoded `SET_VIDEO_STREAM_SETTINGS` (`mavlink_set_video_stream_settings_t`);
the wire fields the handler never reads (framerate, bitrate, rotation, uri)
are elided, the targeting fields are kept. -/
structure SetVideoStreamSettings where
  target_system : Nat
  target_component : Nat
  camera_id : Nat
  resolution_h : Nat
  resolution_v : Nat
deriving DecidableEq, Repr

/-- The C++ stream-lookup loop of
`MavlinkServer::_handle_camera_set_video_stream_settings` keeps the last
matching stream and mutates it through a pointer: this updates the last
element whose id matches `cid`. -/
def updateLastMatching (cid : Nat) (f : Stream → Stream) : List Stream → List Stream
  | [] => []
  | s :: rest =>
    if rest.any (fun t => t.id = cid) then s :: updateLastMatching cid f rest
    else if s.id = cid then f s :: rest
    else s :: updateLastMatching cid f rest

/-- `MavlinkServer::_handle_camera_set_video_stream_settings`: unknown
`camera_id` is logged and dropped; a zero requested dimension clears the
selection; otherwise the selection becomes the resolver's answer.  No reply
is sent. -/
def handleSetVideoStreamSettings (st : ServerState) (m : SetVideoStreamSettings) :
    List OutMsg × ServerState :=
  if st.streams.any (fun t => t.id = m.camera_id) then
    let upd : Stream → Stream := fun s =>
      if m.resolution_h = 0 ∨ m.resolution_v = 0 then
        { s with sel_frame_size := none }
      else
        { s with sel_frame_size := findBestFrameSize s m.resolution_h m.resolution_v }
    ([], { st with streams := updateLastMatching m.camera_id upd st.streams })
  else ([], st)

/-- A decoded `PARAM_EXT_REQUEST_READ` (`mavlink_param_ext_request_read_t`;
`param_index` elided — the handler never reads it). -/
structure ParamExtRequestRead where
  target_system : Nat
  target_component : Nat
  param_id : String
deriving DecidableEq, Repr

/-- A decoded `PARAM_EXT_REQUEST_LIST` (`mavlink_param_ext_request_list_t`). -/
structure ParamExtRequestList where
  target_system : Nat
  target_component : Nat
deriving DecidableEq, Repr

/-- A decoded `PARAM_EXT_SET` (`mavlink_param_ext_set_t`). -/
structure ParamExtSet where
  target_system : Nat
  target_component : Nat
  param_id : String
  param_value : String
  param_type : Int
deriving DecidableEq, Repr

/-- `MavlinkServer::_handle_param_ext_request_read`: nothing at all when the
target component is not bound; otherwise a `PARAM_EXT_VALUE` on a successful
`getParam` and a `PARAM_EXT_ACK(PARAM_ACK_FAILED)` on failure (whose value
buffer the C++ leaves uninitialized — modelled as `""`). -/
def handleParamExtRequestRead (st : ServerState) (m : ParamExtRequestRead) : List OutMsg :=
  match getCameraComponent st m.target_component with
  | none => []
  | some c =>
    match c.getParam m.param_id with
    | some v =>
        [OutMsg.paramExtValue m.target_component m.param_id v 1 0 (c.getParamType m.param_id)]
    | none =>
        [OutMsg.paramExtAck m.target_component m.param_id "" (c.getParamType m.param_id)
          ParamAck.failed]

/-- The per-entry burst of `MavlinkServer::_handle_param_ext_request_list`:
one `PARAM_EXT_VALUE` per entry of the component's parameter list, in
iteration order, with the running zero-based `param_index` and the total
`param_count`. -/
def paramListBurst (tc : Nat) (c : CameraComponent) (total : Nat) :
    Nat → List (String × String) → List OutMsg
  | _, [] => []
  | idx, (k, v) :: rest =>
    OutMsg.paramExtValue tc k v total idx (c.getParamType k) :: paramListBurst tc c total (idx + 1) rest

/-- `MavlinkServer::_handle_param_ext_request_list`: nothing when the target
component is not bound; otherwise the full burst over `getParamList`. -/
def handleParamExtRequestList (st : ServerState) (m : ParamExtRequestList) : List OutMsg :=
  match getCameraComponent st m.target_component with
  | none => []
  | some c => paramListBurst m.target_component c c.getParamList.length 0 c.getParamList

/-- `MavlinkServer::_handle_param_ext_set`: nothing at all when the target
component is not bound; otherwise `setParam` on the component, then a
`PARAM_EXT_ACK` — `PARAM_ACK_ACCEPTED` echoing the requested value on
success, `PARAM_ACK_FAILED` carrying the current value read back on failure.
The mutated component is written back to the registry (pointer mutation in
C++). -/
def handleParamExtSet (st : ServerState) (m : ParamExtSet) : List OutMsg × ServerState :=
  match getCameraComponent st m.target_component with
  | none => ([], st)
  | some c =>
    let rc := c.setParam m.param_id m.param_value m.param_type
    let ack :=
      if rc.1 then
        OutMsg.paramExtAck m.target_component m.param_id m.param_value m.param_type
          ParamAck.accepted
      else
        OutMsg.paramExtAck m.target_component m.param_id
          ((rc.2.getParam m.param_id).getD "") m.param_type ParamAck.failed
    ([ack], { st with compIdToObj := mapAssign st.compIdToObj m.target_component rc.2 })

/-- A decoded inbound MAVLink message, by message id. -/
inductive MavMsg
  | commandLong (cmd : CommandLong)
  | setVideoStreamSettings (m : SetVideoStreamSettings)
  | paramExtRequestRead (m : ParamExtRequestRead)
  | paramExtRequestList (m : ParamExtRequestList)
  | paramExtSet (m : ParamExtSet)
  | other (msgid : Nat)
deriving DecidableEq, Repr

/-- `MavlinkServer::_handle_mavlink_message`: `COMMAND_LONG` is dropped
silently unless `target_system` equals the configured system id and
`target_component` lies in `[MAV_COMP_ID_CAMERA, MAV_COMP_ID_CAMERA6]`, then
routed by command number (unhandled commands are logged and dropped);
non-`COMMAND_LONG` messages are routed by message id with no filter, and
unknown ids are dropped silently.  Returns the outbound traffic and the new
server state. -/
def handleMavlinkMessage (st : ServerState) (msg : MavMsg) : List OutMsg × ServerState :=
  match msg with
  | MavMsg.commandLong cmd =>
    if cmd.target_system ≠ st.system_id ∨ cmd.target_component < MAV_COMP_ID_CAMERA
        ∨ MAV_COMP_ID_CAMERA6 < cmd.target_component then
      ([], st)
    else if cmd.command = MAV_CMD_REQUEST_CAMERA_INFORMATION then
      (handleRequestCameraInformation st cmd, st)
    else if cmd.command = MAV_CMD_REQUEST_VIDEO_STREAM_INFORMATION then
      (handleCameraVideoStreamRequest st cmd.param1 cmd.param2, st)
    else if cmd.command = MAV_CMD_REQUEST_CAMERA_SETTINGS then
      (handleRequestCameraSettings st cmd, st)
    else if cmd.command = MAV_CMD_REQUEST_STORAGE_INFORMATION then
      (handleRequestStorageInformation st cmd, st)
    else ([], st)
  | MavMsg.setVideoStreamSettings m => handleSetVideoStreamSettings st m
  | MavMsg.paramExtRequestRead m => (handleParamExtRequestRead st m, st)
  | MavMsg.paramExtRequestList m => (handleParamExtRequestList st m, st)
  | MavMsg.paramExtSet m => handleParamExtSet st m
  | MavMsg.other _ => ([], st)

/-- The scan loop of `MavlinkServer::addCameraComponent`
(`while (id < MAV_COMP_ID_CAMERA6 + 1) { … id++; }`), unrolled over the
ascending id sequence it visits: at the first id not bound in the registry
the device is inserted and that id returned; an exhausted loop falls out with
`id == MAV_COMP_ID_CAMERA6 + 1` and the registry untouched. -/
def addScan (m : List (Nat × CameraComponent)) (d : CameraComponent) :
    List Nat → Nat × List (Nat × CameraComponent)
  | [] => (MAV_COMP_ID_CAMERA6 + 1, m)
  | id :: rest =>
    match mapFind m id with
    | none => (id, mapInsertNat m id d)
    | some _ => addScan m d rest

/-- `MavlinkServer::addCameraComponent(camComp)`: scans ids
`MAV_COMP_ID_CAMERA … MAV_COMP_ID_CAMERA6` ascending. -/
def addCameraComponent (m : List (Nat × CameraComponent)) (d : CameraComponent) :
    Nat × List (Nat × CameraComponent) :=
  addScan m d [100, 101, 102, 103, 104, 105]

/-- The erase loop of `MavlinkServer::removeCameraComponent`: walks the
registry in iteration (ascending-key) order and erases the first entry whose
device equals the argument. -/
def removeFirstValue (d : CameraComponent) :
    List (Nat × CameraComponent) → List (Nat × CameraComponent)
  | [] => []
  | (k, v) :: rest => if v = d then rest else (k, v) :: removeFirstValue d rest

/-- `MavlinkServer::removeCameraComponent(camComp)`: no-op on a null argument
(modelled as `none`), otherwise erases the first binding of the device. -/
def removeCameraComponent (m : List (Nat × CameraComponent)) :
    Option CameraComponent → List (Nat × CameraComponent)
  | none => m
  | some d => removeFirstValue d m

end Csd

namespace Csd

/-! ## Derived notions and concrete fixtures used by the claims -/

/-- The `COMMAND_ACK`s among a handler's outbound messages, as
`(command, comp_id, result)` triples in emission order. -/
def acks : List OutMsg → List (Nat × Nat × MavResult)
  | [] => []
  | OutMsg.commandAck c i r :: rest => (c, i, r) :: acks rest
  | _ :: rest => acks rest

/-- Strict lexicographic order on frame sizes (width first, then height):
the order the spec's "lexicographically greatest/largest" refers to. -/
def fsLexLt (a b : FrameSize) : Prop :=
  a.width < b.width ∨ (a.width = b.width ∧ a.height < b.height)

instance (a b : FrameSize) : Decidable (fsLexLt a b) := by
  unfold fsLexLt; infer_instance

/-- Specification-side reading of the registry scan ("binds at the first
unbound slot, ascending"): the least unbound id in `100 … 105`, or
`106` (= `MAV_COMP_ID_CAMERA6 + 1`, the out-of-slots result) when all six are
bound. -/
def firstFreeSlot (m : List (Nat × CameraComponent)) : Nat :=
  if mapFind m 100 = none then 100
  else if mapFind m 101 = none then 101
  else if mapFind m 102 = none then 102
  else if mapFind m 103 = none then 103
  else if mapFind m 104 = none then 104
  else if mapFind m 105 = none then 105
  else 106

/-- The association list's keys are strictly ascending for `lt` — the shape
invariant of a `std::map` ordered by `lt`, and its iteration order. -/
def mapSortedBy {K V : Type} (lt : K → K → Bool) (m : List (K × V)) : Prop :=
  m.Pairwise (fun a b => lt a.1 b.1 = true)

/-- The order in which `initParamIdType` populates the schema (first
insertion of each name): what the claim says `iter()` / `list_current()`
follow. -/
def claimedSchemaOrder : List String :=
  [ "camera-mode", "brightness", "contrast", "saturation", "hue", "wb-mode",
    "gamma", "gain", "power-mode", "wb-temp", "sharpness", "backlight",
    "exp-mode", "exp-absolute", "image-size", "image-format", "pixel-format",
    "scene-mode", "video-size", "video-format", "video-snapshot" ]

/-- Folding a sequence of `setParameter` calls into a store: an arbitrary
store content reachable through the public set operation. -/
def storeOfSets (ops : List (String × String)) : CameraParameters :=
  ops.foldl (fun cp kv => (cp.setParameter kv.1 kv.2).2) CameraParameters.init

/-- A server with configured system id 1 and nothing registered. -/
def emptyServer : ServerState :=
  { system_id := 1, comp_id := MAV_COMP_ID_CAMERA, streams := [], compIdToObj := [] }

/-- A `REQUEST_CAMERA_INFORMATION` addressed to system 1, component 100, with
`param1 = 0`. -/
def cmdInfoP0 : CommandLong :=
  { target_system := 1, target_component := 100,
    command := MAV_CMD_REQUEST_CAMERA_INFORMATION, param1 := 0, param2 := 0 }

/-- A stream advertising `(50, 100)` then `(100, 50)` in one format. -/
def streamC3 : Stream :=
  { id := 1, is_streaming := false,
    formats := [{ frame_sizes := [⟨50, 100⟩, ⟨100, 50⟩] }], sel_frame_size := none }

/-- A stream advertising `(1920, 1080)` then `(640, 480)` in one format. -/
def streamC4 : Stream :=
  { id := 1, is_streaming := false,
    formats := [{ frame_sizes := [⟨1920, 1080⟩, ⟨640, 480⟩] }], sel_frame_size := none }

/-- A stream advertising `(100, 100)` then `(200, 200)` in one format. -/
def streamC4b : Stream :=
  { id := 2, is_streaming := false,
    formats := [{ frame_sizes := [⟨100, 100⟩, ⟨200, 200⟩] }], sel_frame_size := none }

/-- Pairwise-distinct opaque devices (object identity carried in an unused
schema entry). -/
def mkDev (n : Nat) : CameraComponent :=
  { params := { paramValue := [], paramValuesSupported := [],
                paramIdType := [("dev", (Int.ofNat n, 0))] },
    deviceAccepts := true }

/-- The registry after `n` successive `addCameraComponent` calls of distinct
devices into an empty registry. -/
def regAfter : Nat → List (Nat × CameraComponent)
  | 0 => []
  | n + 1 => (addCameraComponent (regAfter n) (mkDev (n + 1))).2

/-- A `PARAM_EXT_SET` addressed to component 100. -/
def psetC7 : ParamExtSet :=
  { target_system := 1, target_component := 100, param_id := "brightness",
    param_value := "128", param_type := PARAM_TYPE_UINT32 }

/-- A `PARAM_EXT_REQUEST_READ` addressed to component 100. -/
def preadC7 : ParamExtRequestRead :=
  { target_system := 1, target_component := 100, param_id := "brightness" }

/-- A store holding `camera-mode = "2"` (set first) and `brightness = "128"`
(set second). -/
def storeC8 : CameraParameters :=
  ((CameraParameters.init.setParameter "camera-mode" "2").2.setParameter
    "brightness" "128").2

/-- A camera component over `storeC8`. -/
def compC8 : CameraComponent := { params := storeC8, deviceAccepts := true }

/-- A server with `compC8` bound at component 100. -/
def serverC8 : ServerState :=
  { system_id := 1, comp_id := MAV_COMP_ID_CAMERA, streams := [],
    compIdToObj := [(100, compC8)] }

/-- A `PARAM_EXT_REQUEST_LIST` addressed to component 100. -/
def reqListC8 : ParamExtRequestList := { target_system := 1, target_component := 100 }

end Csd

namespace Csd

/-! ## Helper lemmas: the string order and sorted-map invariants -/

theorem charListLt_trans (as : List Char) : ∀ bs cs : List Char,
    charListLt as bs = true → charListLt bs cs = true → charListLt as cs = true := by
  induction as with
  | nil =>
    intro bs cs h1 h2
    cases bs with
    | nil => simp [charListLt] at h1
    | cons b bs' =>
      cases cs with
      | nil => simp [charListLt] at h2
      | cons c cs' => simp [charListLt]
  | cons a as' ih =>
    intro bs cs h1 h2
    cases bs with
    | nil => simp [charListLt] at h1
    | cons b bs' =>
      cases cs with
      | nil => simp [charListLt] at h2
      | cons c cs' =>
        simp only [charListLt] at h1 h2 ⊢
        by_cases hab : a < b
        · by_cases hbc : b < c
          · simp [lt_trans hab hbc]
          · by_cases hbc2 : b = c
            · subst hbc2; simp [hab]
            · simp [hbc, hbc2] at h2
        · by_cases hab2 : a = b
          · subst hab2
            by_cases hbc : a < c
            · simp [hbc]
            · by_cases hbc2 : a = c
              · subst hbc2
                simp only [if_neg (lt_irrefl a), if_pos rfl] at h1 h2 ⊢
                exact ih _ _ h1 h2
              · simp [hbc, hbc2] at h2
          · simp [hab, hab2] at h1

theorem charListLt_eq_of_not (as : List Char) : ∀ bs : List Char,
    charListLt as bs = false → charListLt bs as = false → as = bs := by
  induction as with
  | nil =>
    intro bs h1 _
    cases bs with
    | nil => rfl
    | cons b bs' => simp [charListLt] at h1
  | cons a as' ih =>
    intro bs h1 h2
    cases bs with
    | nil => simp [charListLt] at h2
    | cons b bs' =>
      simp only [charListLt] at h1 h2
      by_cases hab : a < b
      · simp [hab] at h1
      · by_cases hba : b < a
        · simp [hba] at h2
        · have hab2 : a = b := le_antisymm (not_lt.mp hba) (not_lt.mp hab)
          subst hab2
          simp only [if_neg (lt_irrefl a), if_pos rfl] at h1 h2
          rw [ih bs' h1 h2]

theorem strLt_trans (a b c : String) (h1 : strLt a b = true) (h2 : strLt b c = true) :
    strLt a c = true :=
  charListLt_trans a.data b.data c.data h1 h2

theorem strLt_total (a b : String) (h : a ≠ b) : strLt a b = true ∨ strLt b a = true := by
  cases h1 : strLt a b with
  | true => exact Or.inl rfl
  | false =>
    cases h2 : strLt b a with
    | true => exact Or.inr rfl
    | false =>
      exfalso
      apply h
      have hd : a.data = b.data := charListLt_eq_of_not a.data b.data h1 h2
      exact congrArg String.mk hd

theorem mem_mapInsertBy {K V : Type} [DecidableEq K] (lt : K → K → Bool)
    (m : List (K × V)) (k : K) (v : V) :
    ∀ x ∈ mapInsertBy lt m k v, x ∈ m ∨ x = (k, v) := by
  induction m with
  | nil => intro x hx; simp [mapInsertBy] at hx; simp [hx]
  | cons kv rest ih =>
    intro x hx
    obtain ⟨k', v'⟩ := kv
    simp only [mapInsertBy] at hx
    by_cases h1 : lt k k' = true
    · simp only [if_pos h1, List.mem_cons] at hx
      rcases hx with rfl | rfl | hx
      · exact Or.inr rfl
      · exact Or.inl (by simp)
      · exact Or.inl (by simp [hx])
    · simp only [if_neg h1] at hx
      by_cases h2 : k = k'
      · simp only [if_pos h2, List.mem_cons] at hx
        rcases hx with rfl | hx
        · exact Or.inl (by simp)
        · exact Or.inl (by simp [hx])
      · simp only [if_neg h2, List.mem_cons] at hx
        rcases hx with rfl | hx
        · exact Or.inl (by simp)
        · rcases ih x hx with hm | he
          · exact Or.inl (by simp [hm])
          · exact Or.inr he

theorem mapInsertBy_pairwise {K V : Type} [DecidableEq K] {lt : K → K → Bool}
    (htrans : ∀ a b c : K, lt a b = true → lt b c = true → lt a c = true)
    (htot : ∀ a b : K, a ≠ b → lt a b = true ∨ lt b a = true)
    {m : List (K × V)} (k : K) (v : V)
    (h : mapSortedBy lt m) : mapSortedBy lt (mapInsertBy lt m k v) := by
  induction m with
  | nil => simp [mapSortedBy, mapInsertBy]
  | cons kv rest ih =>
    obtain ⟨k', v'⟩ := kv
    rw [mapSortedBy, List.pairwise_cons] at h
    obtain ⟨hhead, htail⟩ := h
    rw [mapSortedBy]
    simp only [mapInsertBy]
    by_cases h1 : lt k k' = true
    · rw [if_pos h1, List.pairwise_cons]
      refine ⟨?_, List.Pairwise.cons hhead htail⟩
      intro x hx
      rcases List.mem_cons.mp hx with rfl | hx'
      · exact h1
      · exact htrans _ _ _ h1 (hhead x hx')
    · rw [if_neg h1]
      by_cases h2 : k = k'
      · rw [if_pos h2]
        exact List.Pairwise.cons hhead htail
      · rw [if_neg h2, List.pairwise_cons]
        refine ⟨?_, ih htail⟩
        intro x hx
        rcases mem_mapInsertBy lt rest k v x hx with hm | rfl
        · exact hhead x hm
        · rcases htot k k' h2 with hkk | hkk
          · exact absurd hkk h1
          · exact hkk

theorem foldl_mapInsert_sorted {V : Type} (l : List (String × V)) :
    ∀ start : List (String × V), mapSortedBy strLt start →
      mapSortedBy strLt (l.foldl (fun m kv => mapInsert m kv.1 kv.2) start) := by
  induction l with
  | nil => intro start h; simpa using h
  | cons kv rest ih =>
    intro start h
    simp only [List.foldl_cons]
    exact ih _ (mapInsertBy_pairwise strLt_trans strLt_total kv.1 kv.2 h)

end Csd

namespace Csd

/-! ## Helper lemmas: the frame-size resolver -/

theorem findBestGo_allFit (w h : Nat) (l : List FrameSize) : ∀ b : FrameSize,
    (∀ fs ∈ l, fs.width ≤ w ∧ fs.height ≤ h) →
    b.width ≤ w → b.height ≤ h →
    ∃ r, findBestGo w h l (some b) = some r
      ∧ (r = b ∨ r ∈ l)
      ∧ b.width ≤ r.width ∧ b.height ≤ r.height
      ∧ r.width ≤ w ∧ r.height ≤ h
      ∧ ∀ fs ∈ l, r.width ≤ fs.width → r.height ≤ fs.height → fs = r := by
  induction l with
  | nil =>
    intro b _ hbw hbh
    exact ⟨b, rfl, Or.inl rfl, le_refl _, le_refl _, hbw, hbh, by simp⟩
  | cons fs rest ih =>
    intro b hwf hbw hbh
    have hfs := hwf fs (by simp)
    by_cases hex : fs.width = w ∧ fs.height = h
    · refine ⟨fs, ?_, Or.inr (by simp), ?_, ?_, hfs.1, hfs.2, ?_⟩
      · simp [findBestGo, hex]
      · rw [hex.1]; exact hbw
      · rw [hex.2]; exact hbh
      · intro g hg hgw hgh
        have hgwf := hwf g hg
        have e1 : g.width = fs.width := le_antisymm (hex.1 ▸ hgwf.1) hgw
        have e2 : g.height = fs.height := le_antisymm (hex.2 ▸ hgwf.2) hgh
        cases g; cases fs
        simp only [FrameSize.mk.injEq]
        exact ⟨e1, e2⟩
    · by_cases hc : fs.width ≤ w ∧ b.width ≤ fs.width ∧ fs.height ≤ h ∧ b.height ≤ fs.height
      · obtain ⟨r, hr, hmem, hw1, hh1, hwc, hhc, hmax⟩ :=
          ih fs (fun g hg => hwf g (List.mem_cons_of_mem fs hg)) hfs.1 hfs.2
        refine ⟨r, ?_, ?_, le_trans hc.2.1 hw1, le_trans hc.2.2.2 hh1, hwc, hhc, ?_⟩
        · simpa [findBestGo, hex, hc] using hr
        · rcases hmem with rfl | hm
          · exact Or.inr (by simp)
          · exact Or.inr (List.mem_cons_of_mem fs hm)
        · intro g hg hgw hgh
          rcases List.mem_cons.mp hg with rfl | hm
          · have e1 : g.width = r.width := le_antisymm hw1 hgw
            have e2 : g.height = r.height := le_antisymm hh1 hgh
            cases g; cases r
            simp only [FrameSize.mk.injEq]
            exact ⟨e1, e2⟩
          · exact hmax g hm hgw hgh
      · obtain ⟨r, hr, hmem, hw1, hh1, hwc, hhc, hmax⟩ :=
          ih b (fun g hg => hwf g (List.mem_cons_of_mem fs hg)) hbw hbh
        refine ⟨r, ?_, ?_, hw1, hh1, hwc, hhc, ?_⟩
        · simpa [findBestGo, hex, hc] using hr
        · rcases hmem with rfl | hm
          · exact Or.inl rfl
          · exact Or.inr (List.mem_cons_of_mem fs hm)
        · intro g hg hgw hgh
          rcases List.mem_cons.mp hg with rfl | hm
          · exact absurd ⟨hfs.1, le_trans hw1 hgw, hfs.2, le_trans hh1 hgh⟩ hc
          · exact hmax g hm hgw hgh

theorem findBestGo_stuck (w h : Nat) (l : List FrameSize) : ∀ b : FrameSize,
    (∀ fs ∈ l, ¬(fs.width = w ∧ fs.height = h)) →
    ¬(b.width ≤ w ∧ b.height ≤ h) →
    findBestGo w h l (some b) = some b := by
  induction l with
  | nil => intro b _ _; rfl
  | cons fs rest ih =>
    intro b hnx hnf
    have hex := hnx fs (by simp)
    have hc : ¬(fs.width ≤ w ∧ b.width ≤ fs.width ∧ fs.height ≤ h ∧ b.height ≤ fs.height) := by
      rintro ⟨h1, h2, h3, h4⟩
      exact hnf ⟨le_trans h2 h1, le_trans h4 h3⟩
    have := ih b (fun g hg => hnx g (List.mem_cons_of_mem fs hg)) hnf
    simpa [findBestGo, hex, hc] using this

theorem findBestGo_fit (w h : Nat) (l : List FrameSize) : ∀ b : FrameSize,
    (∀ fs ∈ l, ¬(fs.width = w ∧ fs.height = h)) →
    b.width ≤ w → b.height ≤ h →
    ∃ r, findBestGo w h l (some b) = some r
      ∧ (r = b ∨ r ∈ l)
      ∧ b.width ≤ r.width ∧ b.height ≤ r.height
      ∧ r.width ≤ w ∧ r.height ≤ h
      ∧ ∀ fs ∈ l, fs.width ≤ w → fs.height ≤ h →
          r.width ≤ fs.width → r.height ≤ fs.height → fs = r := by
  induction l with
  | nil =>
    intro b _ hbw hbh
    exact ⟨b, rfl, Or.inl rfl, le_refl _, le_refl _, hbw, hbh, by simp⟩
  | cons fs rest ih =>
    intro b hnx hbw hbh
    have hex := hnx fs (by simp)
    by_cases hc : fs.width ≤ w ∧ b.width ≤ fs.width ∧ fs.height ≤ h ∧ b.height ≤ fs.height
    · obtain ⟨r, hr, hmem, hw1, hh1, hwc, hhc, hmax⟩ :=
        ih fs (fun g hg => hnx g (List.mem_cons_of_mem fs hg)) hc.1 hc.2.2.1
      refine ⟨r, ?_, ?_, le_trans hc.2.1 hw1, le_trans hc.2.2.2 hh1, hwc, hhc, ?_⟩
      · simpa [findBestGo, hex, hc] using hr
      · rcases hmem with rfl | hm
        · exact Or.inr (by simp)
        · exact Or.inr (List.mem_cons_of_mem fs hm)
      · intro g hg hgfw hgfh hgw hgh
        rcases List.mem_cons.mp hg with rfl | hm
        · have e1 : g.width = r.width := le_antisymm hw1 hgw
          have e2 : g.height = r.height := le_antisymm hh1 hgh
          cases g; cases r
          simp only [FrameSize.mk.injEq]
          exact ⟨e1, e2⟩
        · exact hmax g hm hgfw hgfh hgw hgh
    · obtain ⟨r, hr, hmem, hw1, hh1, hwc, hhc, hmax⟩ :=
        ih b (fun g hg => hnx g (List.mem_cons_of_mem fs hg)) hbw hbh
      refine ⟨r, ?_, ?_, hw1, hh1, hwc, hhc, ?_⟩
      · simpa [findBestGo, hex, hc] using hr
      · rcases hmem with rfl | hm
        · exact Or.inl rfl
        · exact Or.inr (List.mem_cons_of_mem fs hm)
      · intro g hg hgfw hgfh hgw hgh
        rcases List.mem_cons.mp hg with rfl | hm
        · exact absurd ⟨hgfw, le_trans hw1 hgw, hgfh, le_trans hh1 hgh⟩ hc
        · exact hmax g hm hgfw hgfh hgw hgh

end Csd

namespace Csd

/-! ## The claims -/

/-- C1 (code bug): the claimed store round-trip `set_current(name, v);
get_current(name) == v` fails when a value for `name` was already set:
`CameraParameters::set` uses `std::map::insert`, which is a no-op on an
existing key, yet `setParameter` still reports success (`1`).  Evaluated at
the failing input: a store holding `brightness = "64"`, re-set to `"128"`,
still reads `"64"`. -/
theorem C1_set_keeps_old_value :
    ((CameraParameters.init.setParameter "brightness" "64").2.setParameter
        "brightness" "128").1 = 1
    ∧ ((CameraParameters.init.setParameter "brightness" "64").2.setParameter
        "brightness" "128").2.getParameter "brightness" = "64"
    ∧ ("64" : String) ≠ "128" := by decide

/-- C5 (counterexample): `set_current` does not fail with `BadType` on a
value that is no rendering of the schema type of `brightness` (`UINT32`): it
returns the success code `1` and the current-value map changes. -/
theorem C5_counterexample :
    (CameraParameters.init.setParameter "brightness" "not-a-uint32").1 = 1
    ∧ (CameraParameters.init.setParameter "brightness" "not-a-uint32").2.paramValue
        = [("brightness", "not-a-uint32")]
    ∧ CameraParameters.init.paramValue = [] := by decide

/-- C5 (amended): the store-level set performs no type validation at all and
has no failure path: `setParameter` returns `1` for every key and value, the
current-value map becomes exactly `std::map::insert` of the pair, and the
schema is untouched. -/
theorem C5_amended (cp : CameraParameters) (k v : String) :
    (cp.setParameter k v).1 = 1
    ∧ (cp.setParameter k v).2.paramValue = mapInsert cp.paramValue k v
    ∧ (cp.setParameter k v).2.paramIdType = cp.paramIdType :=
  ⟨rfl, rfl, rfl⟩

/-- C2 (counterexample): a `REQUEST_CAMERA_INFORMATION` that passes the
target filter but has `param1 = 0` is acked `MAV_RESULT_ACCEPTED` although no
device is bound at its `target_component`, refuting "`MAV_RESULT_ACCEPTED`
iff a device was bound". -/
theorem C2_counterexample :
    handleMavlinkMessage emptyServer (MavMsg.commandLong cmdInfoP0)
      = ([OutMsg.commandAck MAV_CMD_REQUEST_CAMERA_INFORMATION 100 MavResult.accepted],
         emptyServer)
    ∧ getCameraComponent emptyServer cmdInfoP0.target_component = none
    ∧ ¬((MavResult.accepted = MavResult.accepted)
          ↔ (getCameraComponent emptyServer cmdInfoP0.target_component).isSome = true) := by
  decide

/-- C2 (amended): each of the three request handlers emits exactly one
`COMMAND_ACK` per invocation (outbound writes modelled as succeeding), whose
result is `MAV_RESULT_ACCEPTED` iff `param1 ≠ 1` (the short-circuit path acks
success without consulting the registry) or a device is bound at the
command's `target_component`. -/
theorem C2_amended (st : ServerState) (cmd : CommandLong) :
    acks (handleRequestCameraInformation st cmd)
      = [(cmd.command, cmd.target_component,
          if cmd.param1 ≠ 1 ∨ (getCameraComponent st cmd.target_component).isSome
          then MavResult.accepted else MavResult.failed)]
    ∧ acks (handleRequestCameraSettings st cmd)
      = [(cmd.command, cmd.target_component,
          if cmd.param1 ≠ 1 ∨ (getCameraComponent st cmd.target_component).isSome
          then MavResult.accepted else MavResult.failed)]
    ∧ acks (handleRequestStorageInformation st cmd)
      = [(cmd.command, cmd.target_component,
          if cmd.param1 ≠ 1 ∨ (getCameraComponent st cmd.target_component).isSome
          then MavResult.accepted else MavResult.failed)] := by
  refine ⟨?_, ?_, ?_⟩ <;>
    (by_cases hp : cmd.param1 = 1 <;>
      cases hcomp : getCameraComponent st cmd.target_component <;>
        simp [handleRequestCameraInformation, handleRequestCameraSettings,
          handleRequestStorageInformation, sendAck, acks, hp, hcomp])

/-- C7 (counterexample): a `PARAM_EXT_SET` (and a `PARAM_EXT_REQUEST_READ`)
whose `target_component` has no bound camera component produces no outbound
message at all — in particular no `PARAM_EXT_ACK(PARAM_ACK_FAILED)` — and
leaves the state unchanged. -/
theorem C7_counterexample :
    handleParamExtSet emptyServer psetC7 = ([], emptyServer)
    ∧ handleParamExtRequestRead emptyServer preadC7 = []
    ∧ getCameraComponent emptyServer psetC7.target_component = none
    ∧ ∀ o ∈ (handleParamExtSet emptyServer psetC7).1, False := by decide

/-- C7 (amended): for every `PARAM_EXT_SET` and `PARAM_EXT_REQUEST_READ`
whose `target_component` has no bound camera component, the server sends
nothing and changes nothing (the message is dropped silently);
`PARAM_ACK_FAILED` is produced only for a bound component whose device-level
operation fails. -/
theorem C7_amended (st : ServerState) (ms : ParamExtSet) (mr : ParamExtRequestRead)
    (hs : getCameraComponent st ms.target_component = none)
    (hr : getCameraComponent st mr.target_component = none) :
    handleParamExtSet st ms = ([], st) ∧ handleParamExtRequestRead st mr = [] := by
  constructor
  · simp [handleParamExtSet, hs]
  · simp [handleParamExtRequestRead, hr]

/-- C7 (witness): the amended statement instantiated at a server with an
empty registry. -/
theorem C7_witness :
    handleParamExtSet emptyServer psetC7 = ([], emptyServer)
    ∧ handleParamExtRequestRead emptyServer preadC7 = [] :=
  C7_amended emptyServer psetC7 preadC7 (by decide) (by decide)

/-- C9 (confirmed): a `COMMAND_LONG` whose `target_system` differs from the
configured system id, or whose `target_component` lies outside
`[MAV_COMP_ID_CAMERA, MAV_COMP_ID_CAMERA6]`, produces no outbound message and
no state change: the dispatcher returns before any handler runs. -/
theorem C9_target_filter (st : ServerState) (cmd : CommandLong)
    (hf : cmd.target_system ≠ st.system_id ∨ cmd.target_component < MAV_COMP_ID_CAMERA
        ∨ MAV_COMP_ID_CAMERA6 < cmd.target_component) :
    handleMavlinkMessage st (MavMsg.commandLong cmd) = ([], st) := by
  simp only [handleMavlinkMessage]
  rw [if_pos hf]

/-- C9 (witness): the filter theorem instantiated at a `COMMAND_LONG` whose
`target_system` is 2 while the configured system id is 1. -/
theorem C9_witness :
    handleMavlinkMessage emptyServer
        (MavMsg.commandLong ⟨2, 100, MAV_CMD_REQUEST_CAMERA_INFORMATION, 1, 0⟩)
      = ([], emptyServer) :=
  C9_target_filter emptyServer ⟨2, 100, MAV_CMD_REQUEST_CAMERA_INFORMATION, 1, 0⟩ (by decide)

/-- C10 (confirmed): handling of the four non-`COMMAND_LONG` message types
does not depend on the message's `target_system` field: two messages
identical up to `target_system` produce the same outbound traffic and the
same new state. -/
theorem C10_no_system_filter (st : ServerState) (a b : Nat)
    (sv : SetVideoStreamSettings) (rr : ParamExtRequestRead)
    (rl : ParamExtRequestList) (ps : ParamExtSet) :
    (handleMavlinkMessage st (MavMsg.setVideoStreamSettings { sv with target_system := a })
      = handleMavlinkMessage st (MavMsg.setVideoStreamSettings { sv with target_system := b }))
    ∧ (handleMavlinkMessage st (MavMsg.paramExtRequestRead { rr with target_system := a })
      = handleMavlinkMessage st (MavMsg.paramExtRequestRead { rr with target_system := b }))
    ∧ (handleMavlinkMessage st (MavMsg.paramExtRequestList { rl with target_system := a })
      = handleMavlinkMessage st (MavMsg.paramExtRequestList { rl with target_system := b }))
    ∧ (handleMavlinkMessage st (MavMsg.paramExtSet { ps with target_system := a })
      = handleMavlinkMessage st (MavMsg.paramExtSet { ps with target_system := b })) := by
  refine ⟨rfl, rfl, rfl, rfl⟩

end Csd

namespace Csd

theorem storeOfSets_paramValue (ops : List (String × String)) :
    ∀ cp : CameraParameters,
      (ops.foldl (fun c kv => (c.setParameter kv.1 kv.2).2) cp).paramValue
        = ops.foldl (fun m kv => mapInsert m kv.1 kv.2) cp.paramValue := by
  induction ops with
  | nil => intro cp; rfl
  | cons kv rest ih =>
    intro cp
    simp only [List.foldl_cons]
    rw [ih]
    rfl

/-- C3 (counterexample): on a stream advertising `(50, 100)` then `(100, 50)`
the resolver at `(UINT32_MAX, UINT32_MAX)` returns `(50, 100)`, not the
lexicographically greatest advertised size `(100, 50)`: the update condition
compares both coordinates pointwise, so `(100, 50)` never replaces
`(50, 100)`. -/
theorem C3_counterexample :
    findBestFrameSize streamC3 UINT32_MAX UINT32_MAX = some ⟨50, 100⟩
    ∧ (⟨100, 50⟩ : FrameSize) ∈ streamC3.allSizes
    ∧ (∀ fs ∈ streamC3.allSizes, fs = ⟨100, 50⟩ ∨ fsLexLt fs ⟨100, 50⟩)
    ∧ (⟨100, 50⟩ : FrameSize) ≠ ⟨50, 100⟩ := by decide

/-- C3 (amended): on every stream with at least one advertised
`(format, frame-size)` pair, all of uint32 range, the resolver called with
`w = h = UINT32_MAX` returns an advertised pair that is maximal in the
componentwise order — no advertised pair is at least as wide and at least as
tall without being that pair — though not necessarily the lexicographically
greatest one. -/
theorem C3_amended (s : Stream)
    (hne : s.allSizes ≠ [])
    (hwf : ∀ fs ∈ s.allSizes, fs.width ≤ UINT32_MAX ∧ fs.height ≤ UINT32_MAX) :
    ∃ b, findBestFrameSize s UINT32_MAX UINT32_MAX = some b
      ∧ b ∈ s.allSizes
      ∧ ∀ fs ∈ s.allSizes, b.width ≤ fs.width → b.height ≤ fs.height → fs = b := by
  unfold findBestFrameSize
  rcases hl : s.allSizes with _ | ⟨f0, rest⟩
  · exact absurd hl hne
  · rw [hl] at hwf
    have hf0 := hwf f0 (by simp)
    by_cases hex : f0.width = UINT32_MAX ∧ f0.height = UINT32_MAX
    · refine ⟨f0, by simp [findBestGo, hex], by simp, ?_⟩
      intro g hg hgw hgh
      have hgwf := hwf g hg
      have e1 : g.width = f0.width := le_antisymm (hex.1 ▸ hgwf.1) hgw
      have e2 : g.height = f0.height := le_antisymm (hex.2 ▸ hgwf.2) hgh
      cases g; cases f0
      simp only [FrameSize.mk.injEq]
      exact ⟨e1, e2⟩
    · obtain ⟨r, hr, hmem, hw1, hh1, hwc, hhc, hmax⟩ :=
        findBestGo_allFit UINT32_MAX UINT32_MAX rest f0
          (fun g hg => hwf g (List.mem_cons_of_mem f0 hg)) hf0.1 hf0.2
      refine ⟨r, by simpa [findBestGo, hex] using hr, ?_, ?_⟩
      · rcases hmem with rfl | hm
        · simp
        · exact List.mem_cons_of_mem f0 hm
      · intro g hg hgw hgh
        rcases List.mem_cons.mp hg with rfl | hm
        · have e1 : g.width = r.width := le_antisymm hw1 hgw
          have e2 : g.height = r.height := le_antisymm hh1 hgh
          cases g; cases r
          simp only [FrameSize.mk.injEq]
          exact ⟨e1, e2⟩
        · exact hmax g hm hgw hgh

/-- C3 (witness): the amended statement instantiated at the stream
advertising `(50, 100)` then `(100, 50)`. -/
theorem C3_witness :
    ∃ b, findBestFrameSize streamC3 UINT32_MAX UINT32_MAX = some b
      ∧ b ∈ streamC3.allSizes
      ∧ ∀ fs ∈ streamC3.allSizes, b.width ≤ fs.width → b.height ≤ fs.height → fs = b :=
  C3_amended streamC3 (by decide) (by decide)

/-- C4 (counterexample): two refutations of the claimed fallback.  On
`(1920, 1080), (640, 480)` at ceiling `(1000, 1000)` a fitting pair exists,
yet the resolver returns `(1920, 1080)` — the first pair, which does not fit
— because the first examined pair becomes the candidate unconditionally and
is only ever replaced by a pair dominating it in both coordinates.  And on
`(100, 100), (200, 200)` at ceiling `(10, 10)` nothing fits and the resolver
returns the first examined pair `(100, 100)`, not the last examined
`(200, 200)`. -/
theorem C4_counterexample :
    findBestFrameSize streamC4 1000 1000 = some ⟨1920, 1080⟩
    ∧ ¬((1920 : Nat) ≤ 1000 ∧ (1080 : Nat) ≤ 1000)
    ∧ (⟨640, 480⟩ : FrameSize) ∈ streamC4.allSizes
    ∧ ((640 : Nat) ≤ 1000 ∧ (480 : Nat) ≤ 1000)
    ∧ (∀ fs ∈ streamC4.allSizes, ¬(fs.width = 1000 ∧ fs.height = 1000))
    ∧ findBestFrameSize streamC4b 10 10 = some ⟨100, 100⟩
    ∧ (∀ fs ∈ streamC4b.allSizes, ¬(fs.width ≤ 10 ∧ fs.height ≤ 10))
    ∧ streamC4b.allSizes.getLast? = some ⟨200, 200⟩
    ∧ (⟨100, 100⟩ : FrameSize) ≠ ⟨200, 200⟩ := by decide

/-- C4 (amended): with no exactly matching advertised pair, the first
examined pair becomes the candidate unconditionally; hence if it does not fit
under the `(w, h)` ceiling the resolver returns it (in particular, when no
pair fits, the first — not the last — examined pair is returned), and if it
does fit the resolver returns a fitting pair that is componentwise-maximal
among the fitting pairs (not necessarily the lexicographically largest). -/
theorem C4_amended (s : Stream) (w h : Nat) (f0 : FrameSize) (rest : List FrameSize)
    (hl : s.allSizes = f0 :: rest)
    (hnx : ∀ fs ∈ s.allSizes, ¬(fs.width = w ∧ fs.height = h)) :
    (¬(f0.width ≤ w ∧ f0.height ≤ h) → findBestFrameSize s w h = some f0)
    ∧ ((f0.width ≤ w ∧ f0.height ≤ h) →
        ∃ r, findBestFrameSize s w h = some r
          ∧ r ∈ s.allSizes
          ∧ r.width ≤ w ∧ r.height ≤ h
          ∧ ∀ fs ∈ s.allSizes, fs.width ≤ w → fs.height ≤ h →
              r.width ≤ fs.width → r.height ≤ fs.height → fs = r) := by
  rw [hl] at hnx
  have hex := hnx f0 (by simp)
  have hunf : findBestFrameSize s w h = findBestGo w h rest (some f0) := by
    unfold findBestFrameSize
    rw [hl]
    simp [findBestGo, hex]
  constructor
  · intro hnf
    rw [hunf]
    exact findBestGo_stuck w h rest f0 (fun g hg => hnx g (List.mem_cons_of_mem f0 hg)) hnf
  · intro hfit
    obtain ⟨r, hr, hmem, hw1, hh1, hwc, hhc, hmax⟩ :=
      findBestGo_fit w h rest f0 (fun g hg => hnx g (List.mem_cons_of_mem f0 hg))
        hfit.1 hfit.2
    refine ⟨r, by rw [hunf]; exact hr, ?_, hwc, hhc, ?_⟩
    · rw [hl]
      rcases hmem with rfl | hm
      · simp
      · exact List.mem_cons_of_mem f0 hm
    · rw [hl]
      intro g hg hgfw hgfh hgw hgh
      rcases List.mem_cons.mp hg with rfl | hm
      · have e1 : g.width = r.width := le_antisymm hw1 hgw
        have e2 : g.height = r.height := le_antisymm hh1 hgh
        cases g; cases r
        simp only [FrameSize.mk.injEq]
        exact ⟨e1, e2⟩
      · exact hmax g hm hgfw hgfh hgw hgh

/-- C4 (witness): the amended statement instantiated on
`(1920, 1080), (640, 480)` at ceiling `(1000, 1000)`: the first pair does not
fit, so the resolver returns it. -/
theorem C4_witness :
    findBestFrameSize streamC4 1000 1000 = some ⟨1920, 1080⟩ :=
  (C4_amended streamC4 1000 1000 ⟨1920, 1080⟩ [⟨640, 480⟩] (by decide) (by decide)).1
    (by decide)

end Csd

namespace Csd

/-- C6 (confirmed): `addCameraComponent` scans ids
`MAV_COMP_ID_CAMERA … MAV_COMP_ID_CAMERA6` ascending, binds the device at the
first unbound slot and returns that id; with all six bound it returns the
out-of-slots value `MAV_COMP_ID_CAMERA6 + 1` and binds nothing.  Six adds
into an empty registry assign `100 … 105`, a seventh returns out-of-slots
with the registry untouched, and after removing the device bound at
`CAMERA3` (102) the next add assigns 102 again. -/
theorem C6_component_assignment :
    (∀ (m : List (Nat × CameraComponent)) (d : CameraComponent),
      (addCameraComponent m d).1 = firstFreeSlot m
      ∧ (addCameraComponent m d).2
          = (if firstFreeSlot m = MAV_COMP_ID_CAMERA6 + 1 then m
             else mapInsertNat m (firstFreeSlot m) d))
    ∧ ((List.range 6).map (fun n => (addCameraComponent (regAfter n) (mkDev (n + 1))).1)
        = [100, 101, 102, 103, 104, 105])
    ∧ (addCameraComponent (regAfter 6) (mkDev 7)).1 = MAV_COMP_ID_CAMERA6 + 1
    ∧ (addCameraComponent (regAfter 6) (mkDev 7)).2 = regAfter 6
    ∧ mapFind (regAfter 6) 102 = some (mkDev 3)
    ∧ (addCameraComponent (removeCameraComponent (regAfter 6) (some (mkDev 3)))
        (mkDev 8)).1 = 102 := by
  refine ⟨?_, by decide, by decide, by decide, by decide, by decide⟩
  intro m d
  cases h0 : mapFind m 100 <;> cases h1 : mapFind m 101 <;> cases h2 : mapFind m 102 <;>
    cases h3 : mapFind m 103 <;> cases h4 : mapFind m 104 <;> cases h5 : mapFind m 105 <;>
      simp [addCameraComponent, addScan, firstFreeSlot, MAV_COMP_ID_CAMERA6,
        h0, h1, h2, h3, h4, h5]

/-- C8 (counterexample): iteration is in `std::map` key order, not schema
insertion order.  `initParamIdType` inserts `camera-mode` first, yet the
schema map's first iterated name is `backlight`, and its key sequence differs
from the population order; likewise a store whose `camera-mode` was set
before `brightness` answers `PARAM_EXT_REQUEST_LIST` with `brightness` at
`param_index` 0 and `camera-mode` at 1. -/
theorem C8_counterexample :
    (initParamIdType.map Prod.fst).head? = some "backlight"
    ∧ claimedSchemaOrder.head? = some "camera-mode"
    ∧ initParamIdType.map Prod.fst ≠ claimedSchemaOrder
    ∧ handleParamExtRequestList serverC8 reqListC8
        = [OutMsg.paramExtValue 100 "brightness" "128" 2 0 PARAM_TYPE_UINT32,
           OutMsg.paramExtValue 100 "camera-mode" "2" 2 1 PARAM_TYPE_UINT32] := by decide

/-- C8 (amended): `list_current()` (the current-value map the
`PARAM_EXT_REQUEST_LIST` burst walks) and schema iteration both yield entries
in ascending lexicographic order of the parameter name — the `std::map` key
order, stable across runs — not in insertion order: the key sequence of every
store reachable by `setParameter` calls is `strLt`-sorted, and so is the key
sequence of the schema map built by `initParamIdType`. -/
theorem C8_amended :
    (∀ ops : List (String × String), mapSortedBy strLt (storeOfSets ops).paramValue)
    ∧ mapSortedBy strLt initParamIdType := by
  constructor
  · intro ops
    unfold storeOfSets
    rw [storeOfSets_paramValue]
    exact foldl_mapInsert_sorted _ _ (by simp [CameraParameters.init, mapSortedBy])
  · unfold initParamIdType
    exact foldl_mapInsert_sorted _ _ (by simp [mapSortedBy])

end Csd
